import Mathlib

/-!
Verification of the `rua` repository's module-resolution traversal and
syntax-tree-to-model conversion layer (`rua_gen`), as a shallow embedding.

Source files embedded:
  * `rua_gen/src/models.rs`  — names/casing, the `RuaType` model family and
    the fallible `TryFrom` conversions from `syn` nodes;
  * `rua_gen/src/errors.rs`  — `ConversionError` and its builder;
  * `rua_gen/src/logic.rs`   — the `RuaRunner` traversal (work stack of
    modules, file resolution, inclusion filter, dispatch to the backend).

Modelling conventions:
  * Rust `String` is Lean `String`; `PathBuf` is `List String` (one entry per
    path component, `push` = append).
  * `syn` nodes are embedded as inductive types carrying the fields the
    conversions read, plus a `Span` (start/end line-column pairs) because the
    error chain captures spans.
  * Side effects are made explicit: `log::warn!`/`log::info!` calls become
    returned flags or entries in a `logs` list; calls into the backend
    (`write_struct` etc.) become `WriteEvent` values.
  * Fallible conversions return `Except ConversionError _`.
-/

namespace Rua

/-- A source span: ((start line, start column), (end line, end column)),
mirroring `proc_macro2::Span::start()/end()`. -/
abbrev Span := (Nat × Nat) × (Nat × Nat)

/-- An identifier token (`proc_macro2::Ident`): its text and its span. -/
structure Ident where
  name : String
  span : Span
  deriving Repr, DecidableEq

/-! ### Casing (`models.rs`, `mod rua_name`, trait `RuaCased`) -/

/-- Embeds `c.is_ascii_lowercase()`. -/
def isAsciiLowercase (c : Char) : Bool := 97 ≤ c.toNat && c.toNat ≤ 122

/-- Embeds `c.is_ascii_uppercase()`. -/
def isAsciiUppercase (c : Char) : Bool := 65 ≤ c.toNat && c.toNat ≤ 90

/-- Embeds `c.to_ascii_lowercase()`. -/
def toAsciiLowercase (c : Char) : Char :=
  if isAsciiUppercase c then Char.ofNat (c.toNat + 32) else c

/-- Embeds `c.to_ascii_uppercase()`. -/
def toAsciiUppercase (c : Char) : Char :=
  if isAsciiLowercase c then Char.ofNat (c.toNat - 32) else c

/-- Embeds `RuaCased::is_snake_case`: nonempty and every char is ASCII lowercase
or an underscore. -/
def is_snake_case (s : String) : Bool :=
  !s.data.isEmpty && s.data.all (fun c => isAsciiLowercase c || c == '_')

/-- Embeds `RuaCased::is_camel_case`: nonempty, not snake case, and the first char
is ASCII lowercase. -/
def is_camel_case (s : String) : Bool :=
  !s.data.isEmpty && !is_snake_case s &&
    (match s.data.head? with
     | some v => isAsciiLowercase v
     | none => false)

/-- Embeds `RuaCased::is_pascal_case`: nonempty, not snake case, and the first char
is ASCII uppercase. -/
def is_pascal_case (s : String) : Bool :=
  !s.data.isEmpty && !is_snake_case s &&
    (match s.data.head? with
     | some v => isAsciiUppercase v
     | none => false)

/-- Embeds `RuaCased::to_snake_case`: lowercase the first char; each later uppercase
char becomes an underscore followed by its lowercase form. -/
def to_snake_case (s : String) : String :=
  match s.data with
  | [] => ""
  | first :: rest =>
    ⟨toAsciiLowercase first ::
      rest.flatMap (fun c =>
        if isAsciiUppercase c then ['_', toAsciiLowercase c] else [c])⟩

/-- Helper for `to_camel_case`: the loop body for the chars after the first,
with the `prev_is_dash` flag. -/
def toCamelRest : Bool → List Char → List Char
  | _, [] => []
  | prevIsDash, c :: rest =>
    if c == '_' then toCamelRest true rest
    else if prevIsDash then toAsciiUppercase c :: toCamelRest false rest
    else c :: toCamelRest false rest

/-- Embeds `RuaCased::to_camel_case`: lowercase the first char; drop underscores and
uppercase the char following each run of underscores. -/
def to_camel_case (s : String) : String :=
  match s.data with
  | [] => ""
  | first :: rest => ⟨toAsciiLowercase first :: toCamelRest false rest⟩

/-- Embeds `RuaCased::to_pascal_case`: camel case, then uppercase the first char. -/
def to_pascal_case (s : String) : String :=
  match (to_camel_case s).data with
  | [] => ""
  | first :: rest => ⟨toAsciiUppercase first :: rest⟩

/-! ### `ConversionError` and its builder (`errors.rs`) -/

/-- Embeds `ConversionError`: optional path, optional start/end locations, optional
source/target type tags, optional message, optional boxed predecessor error
(`err_source`), forming a cause chain. Recursive, hence an inductive. -/
inductive ConversionError : Type where
  | mk
    (path : Option (List String))
    (start : Option (Nat × Nat))
    (end_ : Option (Nat × Nat))
    (source_type : Option String)
    (target_type : Option String)
    (message : Option String)
    (err_source : Option ConversionError)

def ConversionError.path : ConversionError → Option (List String)
  | .mk p _ _ _ _ _ _ => p

def ConversionError.start : ConversionError → Option (Nat × Nat)
  | .mk _ s _ _ _ _ _ => s

def ConversionError.end_ : ConversionError → Option (Nat × Nat)
  | .mk _ _ e _ _ _ _ => e

def ConversionError.source_type : ConversionError → Option String
  | .mk _ _ _ st _ _ _ => st

def ConversionError.target_type : ConversionError → Option String
  | .mk _ _ _ _ tt _ _ => tt

def ConversionError.message : ConversionError → Option String
  | .mk _ _ _ _ _ m _ => m

def ConversionError.err_source : ConversionError → Option ConversionError
  | .mk _ _ _ _ _ _ src => src

/-- The innermost error of the cause chain (the chain's last element). -/
def ConversionError.innermost : ConversionError → ConversionError
  | .mk _ _ _ _ _ _ (some cause) => cause.innermost
  | e => e

/-- Embeds `ConversionErrorBuilder`: same seven optional fields, all initially
unset. -/
structure ConversionErrorBuilder where
  path : Option (List String)
  start : Option (Nat × Nat)
  end_ : Option (Nat × Nat)
  source_type : Option String
  target_type : Option String
  message : Option String
  err_source : Option ConversionError

/-- Embeds `ConversionError::builder()`: a builder with every field unset. -/
def ConversionError.builder : ConversionErrorBuilder :=
  ⟨none, none, none, none, none, none, none⟩

/-- Embeds `ConversionError::builder_for_next()`: a fresh builder whose
`err_source` is (a clone of) `self`. -/
def ConversionError.builder_for_next (e : ConversionError) :
    ConversionErrorBuilder :=
  ⟨none, none, none, none, none, none, some e⟩

/-- Setter `ConversionErrorBuilder::path`. -/
def ConversionErrorBuilder.setPath (b : ConversionErrorBuilder)
    (p : List String) : ConversionErrorBuilder :=
  { b with path := some p }

/-- Setter `ConversionErrorBuilder::start`. -/
def ConversionErrorBuilder.setStart (b : ConversionErrorBuilder)
    (location : Nat × Nat) : ConversionErrorBuilder :=
  { b with start := some location }

/-- Setter `ConversionErrorBuilder::end`. -/
def ConversionErrorBuilder.setEnd (b : ConversionErrorBuilder)
    (location : Nat × Nat) : ConversionErrorBuilder :=
  { b with end_ := some location }

/-- Setter `ConversionErrorBuilder::span`: sets both start and end from a
node's span. -/
def ConversionErrorBuilder.setSpan (b : ConversionErrorBuilder)
    (sp : Span) : ConversionErrorBuilder :=
  { b with start := some sp.1, end_ := some sp.2 }

/-- Setter `ConversionErrorBuilder::source_type`. -/
def ConversionErrorBuilder.setSourceType (b : ConversionErrorBuilder)
    (s : String) : ConversionErrorBuilder :=
  { b with source_type := some s }

/-- Setter `ConversionErrorBuilder::target_type`. -/
def ConversionErrorBuilder.setTargetType (b : ConversionErrorBuilder)
    (s : String) : ConversionErrorBuilder :=
  { b with target_type := some s }

/-- Setter `ConversionErrorBuilder::message`. -/
def ConversionErrorBuilder.setMessage (b : ConversionErrorBuilder)
    (m : String) : ConversionErrorBuilder :=
  { b with message := some m }

/-- Embeds `ConversionErrorBuilder::build`: `Option::take`s every field into the
returned error, leaving the builder with every field unset. The second
component is the builder's state after the call (`&mut self` in Rust). -/
def ConversionErrorBuilder.build (b : ConversionErrorBuilder) :
    ConversionError × ConversionErrorBuilder :=
  (ConversionError.mk b.path b.start b.end_ b.source_type b.target_type
      b.message b.err_source,
   ⟨none, none, none, none, none, none, none⟩)

/-- The `|err| err.builder_for_next().span(..).source_type(..)
.target_type(..).build()` closure that every conversion uses to wrap a
predecessor error. -/
def errMapper (sp : Span) (src tgt : String) (e : ConversionError) :
    ConversionError :=
  ((((e.builder_for_next).setSpan sp).setSourceType src).setTargetType
      tgt).build.1

/-- The `generate_error` closures: a fresh error with span, tags and a
message, no cause. -/
def genError (sp : Span) (src tgt msg : String) : ConversionError :=
  (((((ConversionError.builder).setSpan sp).setSourceType src).setTargetType
      tgt).setMessage msg).build.1

/-! ### Names (`models.rs`, `mod rua_name`) -/

/-- Embeds `RuaCase`: the casing tag of a name. -/
inductive RuaCase : Type where
  | SnakeCase
  | CamelCase
  | PascalCase
  deriving Repr, DecidableEq

/-- Embeds `RuaCase::convert`: converts a string to this case. -/
def RuaCase.convert : RuaCase → String → String
  | .SnakeCase, s => to_snake_case s
  | .CamelCase, s => to_camel_case s
  | .PascalCase, s => to_pascal_case s

/-- Embeds `RuaCase::check`: whether a string is in this case. -/
def RuaCase.check : RuaCase → String → Bool
  | .SnakeCase, s => is_snake_case s
  | .CamelCase, s => is_camel_case s
  | .PascalCase, s => is_pascal_case s

/-- Embeds `RuaName`: a name string together with its casing tag. -/
structure RuaName where
  name : String
  case_ : RuaCase
  deriving Repr, DecidableEq

/-- Embeds `RuaName::new`: constructs the name unconditionally; the Bool records
whether the `log::warn!` fired (it fires exactly when the string is not in
the requested case). -/
def RuaName.new (name : String) (c : RuaCase) : RuaName × Bool :=
  (⟨name, c⟩, !c.check name)

/-- Embeds `RuaName::check`: whether the stored string is in the stored case. -/
def RuaName.check (n : RuaName) : Bool :=
  n.case_.check n.name

/-- Embeds `RuaName::convert`: re-case the string and build a new name (through
`RuaName::new`, so it may warn). -/
def RuaName.convert (n : RuaName) (c : RuaCase) : RuaName × Bool :=
  RuaName.new (c.convert n.name) c

/-- Embeds `TryFrom<&Ident> for RuaName` (`models.rs`): classify the identifier's
casing; fail with a tagged, span-carrying error when none of the three
predicates holds. -/
def tryFromIdentRuaName (i : Ident) : Except ConversionError RuaName :=
  let name := i.name
  if is_snake_case name then .ok ⟨name, .SnakeCase⟩
  else if is_camel_case name then .ok ⟨name, .CamelCase⟩
  else if is_pascal_case name then .ok ⟨name, .PascalCase⟩
  else .error (genError i.span "syn::Ident" "RuaName"
    ("The name of the ident is not a valid case: " ++ name))

/-! ### The intermediate type model (`models.rs`) -/

/-- Embeds `RuaArrayLen`: a literal length or a named constant. -/
inductive RuaArrayLen : Type where
  | Num (n : Nat)
  | Const (s : String)
  deriving Repr, DecidableEq

mutual

/-- Embeds `RuaType`: the backend-agnostic type model. -/
inductive RuaType : Type where
  | I8 | I16 | I32 | I64 | I128
  | U8 | U16 | U32 | U64 | U128
  | F32 | F64
  | Bool
  | Isize | Usize
  | Char | Str | String
  | Slice (s : RuaSlice)
  | Array (a : RuaArray)
  | Tuple (t : RuaTuple)
  | Struct (s : RuaStruct)
  | Enum (e : RuaEnum)
  | Pointer (p : RuaPointer)
  | Reference (r : RuaReference)
  | Fn (f : RuaFn)
  | Custom (n : RuaName)
  | Unit

/-- Embeds `RuaSlice`: element type of `&[T]`. -/
inductive RuaSlice : Type where
  | mk (ty : RuaType)

/-- Embeds `RuaArray`: element type and length of `[T; N]`. -/
inductive RuaArray : Type where
  | mk (ty : RuaType) (len : RuaArrayLen)

/-- Embeds `RuaTuple`: ordered element types. -/
inductive RuaTuple : Type where
  | mk (tys : List RuaType)

/-- Embeds `RuaVar`: a name paired with a type. -/
inductive RuaVar : Type where
  | mk (name : RuaName) (ty : RuaType)

/-- Embeds `RuaStruct`: named / tuple / unit shape. -/
inductive RuaStruct : Type where
  | Named (s : RuaNamedStruct)
  | Tuple (s : RuaTupleStruct)
  | Unit (s : RuaUnitStruct)

/-- Embeds `RuaNamedStruct`: name plus named fields. -/
inductive RuaNamedStruct : Type where
  | mk (name : RuaName) (fields : List RuaVar)

/-- Embeds `RuaTupleStruct`: name plus positional field types. -/
inductive RuaTupleStruct : Type where
  | mk (name : RuaName) (tys : List RuaType)

/-- Embeds `RuaUnitStruct`: just a name. -/
inductive RuaUnitStruct : Type where
  | mk (name : RuaName)

/-- Embeds `RuaEnum`: name plus variants, each in struct shape. -/
inductive RuaEnum : Type where
  | mk (name : RuaName) (variants : List RuaStruct)

/-- Embeds `RuaPointer`: const flag and pointee. -/
inductive RuaPointer : Type where
  | mk (is_const : Bool) (ty : RuaType)

/-- Embeds `RuaReference`: mutability flag and referent. -/
inductive RuaReference : Type where
  | mk (is_mut : Bool) (ty : RuaType)

/-- Embeds `RuaFn`: a bare (unnamed) or named-signature function. -/
inductive RuaFn : Type where
  | Bare (f : RuaBareFn)
  | Fn (f : RuaSigFn)

/-- Embeds `RuaBareFn`: parameter types and return type. -/
inductive RuaBareFn : Type where
  | mk (params : List RuaType) (ret : RuaType)

/-- Embeds `RuaSigFn`: name, named parameters and return type. -/
inductive RuaSigFn : Type where
  | mk (name : RuaName) (params : List RuaVar) (ret : RuaType)

end

/-! ### The embedded `syn` type nodes -/

/-- Embeds `syn::Expr`, restricted to the shapes `TryFrom<&Expr> for RuaArrayLen`
distinguishes: an integer literal (its parsed value), another literal,
a path (its segments), or anything else. -/
inductive SynExpr : Type where
  | litInt (sp : Span) (n : Nat)
  | litOther (sp : Span)
  | path (sp : Span) (segments : List Ident)
  | other (sp : Span)
  deriving Repr, DecidableEq

/-- Embeds `syn::Type`. Each constructor carries the node's span. `bareFn` carries
its `BareFnArg`s as (span, type) pairs and its `ReturnType` as
`none` (= `ReturnType::Default`) or `some (span, type)`. A `path` carries
its segment identifiers. -/
inductive SynType : Type where
  | array (sp : Span) (elem : SynType) (len : SynExpr)
  | bareFn (sp : Span) (inputs : List (Span × SynType))
      (output : Option (Span × SynType))
  | group (sp : Span)
  | implTrait (sp : Span)
  | infer (sp : Span)
  | macroTy (sp : Span)
  | never (sp : Span)
  | paren (sp : Span)
  | path (sp : Span) (segments : List Ident)
  | ptr (sp : Span) (is_const : Bool) (elem : SynType)
  | reference (sp : Span) (is_mut : Bool) (elem : SynType)
  | slice (sp : Span) (elem : SynType)
  | traitObject (sp : Span)
  | tuple (sp : Span) (elems : List SynType)
  | verbatim (sp : Span) (ts : String)

/-- The span of a `syn::Type` node (`value.span()`). -/
def SynType.span : SynType → Span
  | .array sp _ _ => sp
  | .bareFn sp _ _ => sp
  | .group sp => sp
  | .implTrait sp => sp
  | .infer sp => sp
  | .macroTy sp => sp
  | .never sp => sp
  | .paren sp => sp
  | .path sp _ => sp
  | .ptr sp _ _ => sp
  | .reference sp _ _ => sp
  | .slice sp _ => sp
  | .traitObject sp => sp
  | .tuple sp _ => sp
  | .verbatim sp _ => sp

/-! ### Type conversions (`models.rs`, the `TryFrom` impls) -/

/-- Embeds `TryFrom<&Ident> for RuaType`: the fixed chain of primitive spellings;
anything else becomes `Custom` of the classified name, and a name that
classifies as no casing propagates that failure (wrapped). -/
def tryFromIdentRuaType (i : Ident) : Except ConversionError RuaType :=
  if i.name == "u8" then .ok .U8
  else if i.name == "u16" then .ok .U16
  else if i.name == "u32" then .ok .U32
  else if i.name == "u64" then .ok .U64
  else if i.name == "u128" then .ok .U128
  else if i.name == "usize" then .ok .Usize
  else if i.name == "i8" then .ok .I8
  else if i.name == "i16" then .ok .I16
  else if i.name == "i32" then .ok .I32
  else if i.name == "i64" then .ok .I64
  else if i.name == "i128" then .ok .I128
  else if i.name == "isize" then .ok .Isize
  else if i.name == "f32" then .ok .F32
  else if i.name == "f64" then .ok .F64
  else if i.name == "bool" then .ok .Bool
  else if i.name == "char" || i.name == "Char" then .ok .Char
  else if i.name == "str" then .ok .Str
  else if i.name == "String" then .ok .String
  else if i.name == "unit" || i.name == "Unit" || i.name == "()" then
    .ok .Unit
  else
    match tryFromIdentRuaName i with
    | .ok n => .ok (.Custom n)
    | .error e => .error (errMapper i.span "syn::Ident" "RuaType" e)

/-- Embeds `TryFrom<&TypePath> for RuaType`: inspect only the last path segment's
identifier; an empty path is an error. -/
def tryFromTypePath (sp : Span) (segments : List Ident) :
    Except ConversionError RuaType :=
  match segments.getLast? with
  | none =>
    .error (errMapper sp "syn::TypePath" "RuaType"
      ((ConversionError.builder.setMessage "empty path").build.1))
  | some last =>
    match tryFromIdentRuaType last with
    | .error e => .error (errMapper sp "syn::TypePath" "RuaType" e)
    | .ok t => .ok t

/-- Embeds `TryFrom<&Expr> for RuaArrayLen`: an integer literal or a
single-segment path naming a constant; anything else fails. (Overflow of
`usize` in `base10_parse` is not modelled; the literal's value is a `Nat`.) -/
def tryFromExprArrayLen (e : SynExpr) : Except ConversionError RuaArrayLen :=
  match e with
  | .litInt _ n => .ok (.Num n)
  | .litOther sp =>
    .error (genError sp "syn::Expr" "RuaArrayLen" "unsupported literal type")
  | .path sp segments =>
    match segments with
    | [seg] => .ok (.Const seg.name)
    | _ =>
      .error (genError sp "syn::Expr" "RuaArrayLen"
        "unsupported path segments length")
  | .other sp =>
    .error (genError sp "syn::Expr" "RuaArrayLen"
      "unsupported expression type")

mutual

/-- Embeds `TryFrom<&Type> for RuaType`: dispatch on the syntactic category;
the unsupported categories fail with a message naming the category. -/
def tryFromType : SynType → Except ConversionError RuaType
  | .array sp elem len =>
    (match tryFromTypeArray sp elem len with
     | .error e => .error (errMapper sp "syn::Type" "RuaType" e)
     | .ok a => .ok (.Array a))
  | .bareFn sp inputs output =>
    (match tryFromTypeBareFn sp inputs output with
     | .error e => .error (errMapper sp "syn::Type" "RuaType" e)
     | .ok f => .ok (.Fn (.Bare f)))
  | .group sp =>
    .error (genError sp "syn::Type" "RuaType" "unsupported type Group")
  | .implTrait sp =>
    .error (genError sp "syn::Type" "RuaType" "unsupported type ImplTrait")
  | .infer sp =>
    .error (genError sp "syn::Type" "RuaType"
      "unsupported type Infer, please specify the type explicitly")
  | .macroTy sp =>
    .error (genError sp "syn::Type" "RuaType" "unsupported type Macro")
  | .never sp =>
    .error (genError sp "syn::Type" "RuaType" "unsupported type Never")
  | .paren sp =>
    .error (genError sp "syn::Type" "RuaType" "unsupported type Paren")
  | .path sp segments =>
    (match tryFromTypePath sp segments with
     | .error e => .error (errMapper sp "syn::Type" "RuaType" e)
     | .ok t => .ok t)
  | .ptr sp is_const elem =>
    (match tryFromTypePtr sp is_const elem with
     | .error e => .error (errMapper sp "syn::Type" "RuaType" e)
     | .ok p => .ok (.Pointer p))
  | .reference sp is_mut elem =>
    (match tryFromTypeReference sp is_mut elem with
     | .error e => .error (errMapper sp "syn::Type" "RuaType" e)
     | .ok r => .ok (.Reference r))
  | .slice sp elem =>
    (match tryFromTypeSlice sp elem with
     | .error e => .error (errMapper sp "syn::Type" "RuaType" e)
     | .ok s => .ok (.Slice s))
  | .traitObject sp =>
    .error (genError sp "syn::Type" "RuaType" "unsupported type TraitObject")
  | .tuple sp elems =>
    (match tryFromTypeTuple sp elems with
     | .error e => .error (errMapper sp "syn::Type" "RuaType" e)
     | .ok t => .ok (.Tuple t))
  | .verbatim sp ts =>
    .error (genError sp "syn::Type" "RuaType"
      ("unsupported type Verbatim: " ++ ts))
termination_by t => 4 * sizeOf t

/-- Embeds `TryFrom<&TypeSlice> for RuaSlice`. -/
def tryFromTypeSlice (sp : Span) (elem : SynType) :
    Except ConversionError RuaSlice :=
  match tryFromType elem with
  | .error e => .error (errMapper sp "syn::TypeSlice" "RuaSlice" e)
  | .ok ty => .ok (.mk ty)
termination_by 4 * sizeOf elem + 1

/-- Embeds `TryFrom<&TypeArray> for RuaArray`: element type, then length. -/
def tryFromTypeArray (sp : Span) (elem : SynType) (len : SynExpr) :
    Except ConversionError RuaArray :=
  match tryFromType elem with
  | .error e => .error (errMapper sp "syn::TypeArray" "RuaArray" e)
  | .ok ty =>
    match tryFromExprArrayLen len with
    | .error e => .error (errMapper sp "syn::TypeArray" "RuaArray" e)
    | .ok l => .ok (.mk ty l)
termination_by 4 * sizeOf elem + 1

/-- Embeds `TryFrom<&TypeTuple> for RuaTuple`. -/
def tryFromTypeTuple (sp : Span) (elems : List SynType) :
    Except ConversionError RuaTuple :=
  match tryFromTypeTupleElems sp elems with
  | .error e => .error e
  | .ok tys => .ok (.mk tys)
termination_by 4 * sizeOf elems + 3

/-- The `elems.iter().map(..).collect::<Result<Vec<_>,_>>()` of the tuple
conversion: first failure wins, each element failure wrapped with the
tuple's error mapper. -/
def tryFromTypeTupleElems (sp : Span) :
    List SynType → Except ConversionError (List RuaType)
  | [] => .ok []
  | t :: ts =>
    match tryFromType t with
    | .error e => .error (errMapper sp "syn::TypeTuple" "RuaTuple" e)
    | .ok ty =>
      match tryFromTypeTupleElems sp ts with
      | .error e => .error e
      | .ok tys => .ok (ty :: tys)
termination_by l => 4 * sizeOf l + 2

/-- Embeds `TryFrom<&TypePtr> for RuaPointer`. -/
def tryFromTypePtr (sp : Span) (is_const : Bool) (elem : SynType) :
    Except ConversionError RuaPointer :=
  match tryFromType elem with
  | .error e => .error (errMapper sp "syn::TypePtr" "RuaPointer" e)
  | .ok ty => .ok (.mk is_const ty)
termination_by 4 * sizeOf elem + 1

/-- Embeds `TryFrom<&TypeReference> for RuaReference`. -/
def tryFromTypeReference (sp : Span) (is_mut : Bool) (elem : SynType) :
    Except ConversionError RuaReference :=
  match tryFromType elem with
  | .error e => .error (errMapper sp "syn::TypeReference" "RuaReference" e)
  | .ok ty => .ok (.mk is_mut ty)
termination_by 4 * sizeOf elem + 1

/-- Embeds `TryFrom<&TypeBareFn> for RuaBareFn` (its error mapper tags the target
as `RuaFn`, as in the source). -/
def tryFromTypeBareFn (sp : Span) (inputs : List (Span × SynType))
    (output : Option (Span × SynType)) : Except ConversionError RuaBareFn :=
  match tryFromBareFnInputs sp inputs with
  | .error e => .error e
  | .ok params =>
    match tryFromReturnType output with
    | .error e => .error (errMapper sp "syn::TypeBareFn" "RuaFn" e)
    | .ok ret => .ok (.mk params ret)
termination_by 4 * (sizeOf inputs + sizeOf output) + 3

/-- The parameter collection of the bare-fn conversion: each argument
failure is wrapped with the bare fn's mapper. -/
def tryFromBareFnInputs (sp : Span) :
    List (Span × SynType) → Except ConversionError (List RuaType)
  | [] => .ok []
  | a :: rest =>
    match tryFromBareFnArg a with
    | .error e => .error (errMapper sp "syn::TypeBareFn" "RuaFn" e)
    | .ok t =>
      match tryFromBareFnInputs sp rest with
      | .error e => .error e
      | .ok ts => .ok (t :: ts)
termination_by l => 4 * sizeOf l + 2

/-- Embeds `TryFrom<&BareFnArg> for RuaType`. -/
def tryFromBareFnArg : Span × SynType → Except ConversionError RuaType
  | (asp, t) =>
    match tryFromType t with
    | .error e => .error (errMapper asp "syn::BareFnArg" "RuaType" e)
    | .ok ty => .ok ty
termination_by a => 4 * sizeOf a + 1

/-- Embeds `TryFrom<&ReturnType> for RuaType`: `Default` is `Unit`. -/
def tryFromReturnType : Option (Span × SynType) →
    Except ConversionError RuaType
  | none => .ok .Unit
  | some (sp, t) =>
    match tryFromType t with
    | .error e => .error (errMapper sp "syn::ReturnType" "RuaType" e)
    | .ok ty => .ok ty
termination_by o => 4 * sizeOf o + 2

end

/-! ### Struct conversion (`models.rs`, `mod rua_struct`) -/

/-- A `syn::Field`: its span, its optional name and its type. -/
structure SynField where
  span : Span
  ident : Option Ident
  ty : SynType

/-- Embeds `syn::Fields`: named, unnamed (positional) or unit shape. -/
inductive SynFields : Type where
  | named (fields : List SynField)
  | unnamed (fields : List SynField)
  | unit

/-- A `syn::ItemStruct`: span, attributes (by name), visibility
(`vis` is `true` for `Visibility::Public`), name and fields. -/
structure ItemStruct where
  span : Span
  attrs : List String
  vis : Bool
  ident : Ident
  fields : SynFields

/-- Embeds `TryFrom<&Field> for RuaVar`: name first (required), then the type;
both failures are wrapped with the field's span and the
(`syn::Field` → `RuaVar`) tags. -/
def tryFromFieldVar (f : SynField) : Except ConversionError RuaVar :=
  match f.ident with
  | some id =>
    (match tryFromIdentRuaName id with
     | .error e => .error (errMapper f.span "syn::Field" "RuaVar" e)
     | .ok nm =>
       match tryFromType f.ty with
       | .error e => .error (errMapper f.span "syn::Field" "RuaVar" e)
       | .ok ty => .ok (.mk nm ty))
  | none =>
    .error (genError f.span "syn::Field" "RuaVar" "field name is required")

/-- The `(span, source tag, target tag)` data of an enclosing conversion's
error mapper, passed down as `&error_mapper` is in the source. -/
structure MapperData where
  sp : Span
  src : String
  tgt : String

/-- Apply an enclosing conversion's error mapper. -/
def applyMapper (d : MapperData) (e : ConversionError) : ConversionError :=
  errMapper d.sp d.src d.tgt e

/-- Embeds `convert_named_fields`: convert each named field, wrapping any failure
with the enclosing conversion's mapper; first failure wins. -/
def convert_named_fields (d : MapperData) :
    List SynField → Except ConversionError (List RuaVar)
  | [] => .ok []
  | f :: fs =>
    match tryFromFieldVar f with
    | .error e => .error (applyMapper d e)
    | .ok v =>
      match convert_named_fields d fs with
      | .error e => .error e
      | .ok vs => .ok (v :: vs)

/-- Embeds `convert_unnamed_fields`: convert each positional field's type, wrapping
any failure with the enclosing conversion's mapper. -/
def convert_unnamed_fields (d : MapperData) :
    List SynField → Except ConversionError (List RuaType)
  | [] => .ok []
  | f :: fs =>
    match tryFromType f.ty with
    | .error e => .error (applyMapper d e)
    | .ok t =>
      match convert_unnamed_fields d fs with
      | .error e => .error e
      | .ok ts => .ok (t :: ts)

/-- Embeds `convert_fields`: classify by field shape; fields are converted before
the name, as in the source. -/
def convert_fields (name : Ident) (fields : SynFields) (d : MapperData) :
    Except ConversionError RuaStruct :=
  match fields with
  | .named named =>
    (match convert_named_fields d named with
     | .error e => .error e
     | .ok fs =>
       match tryFromIdentRuaName name with
       | .error e => .error (applyMapper d e)
       | .ok nm => .ok (.Named (.mk nm fs)))
  | .unnamed unnamed =>
    (match convert_unnamed_fields d unnamed with
     | .error e => .error e
     | .ok tys =>
       match tryFromIdentRuaName name with
       | .error e => .error (applyMapper d e)
       | .ok nm => .ok (.Tuple (.mk nm tys)))
  | .unit =>
    (match tryFromIdentRuaName name with
     | .error e => .error (applyMapper d e)
     | .ok nm => .ok (.Unit (.mk nm)))

/-- Embeds `TryFrom<&ItemStruct> for RuaStruct`: `convert_fields` under the
(`syn::ItemStruct` → `RuaStruct`) mapper at the struct's span. -/
def tryFromItemStructRua (s : ItemStruct) : Except ConversionError RuaStruct :=
  convert_fields s.ident s.fields ⟨s.span, "syn::ItemStruct", "RuaStruct"⟩

/-! ### The runner (`logic.rs`) -/

/-- Embeds `logic::RuaModuleType`. -/
inductive RuaModuleType : Type where
  | CrateModule
  | FileModule
  deriving Repr, DecidableEq

/-- Embeds `logic::Module`: name, kind and root path. -/
structure Module where
  name : String
  ty : RuaModuleType
  root_path : List String
  deriving Repr, DecidableEq

/-- A `syn::ItemEnum` as the runner sees it: span, attributes, visibility,
name and variants (each a name plus a field shape). -/
structure ItemEnum where
  span : Span
  attrs : List String
  vis : Bool
  ident : Ident
  variants : List (Ident × SynFields)

/-- A `syn::ItemFn` as the runner sees it: span, attributes, visibility and
name. (The signature plays no role in the traversal, which forwards the
item to the backend wholesale.) -/
structure ItemFn where
  span : Span
  attrs : List String
  vis : Bool
  ident : Ident

/-- A top-level `syn::Item`, restricted to the alternatives
`handle_parsed_file` distinguishes: modules, structs, enums, functions and
everything else. A module item carries its name and whether it is `pub`. -/
inductive Item : Type where
  | mod_ (name : String) (is_pub : Bool)
  | struct_ (s : ItemStruct)
  | enum_ (e : ItemEnum)
  | fn_ (f : ItemFn)
  | other

/-- The `RuaVisible::is_pub` adapters (`adapters.rs`): an item is public
iff its visibility is `Visibility::Public`. -/
def Item.is_pub : Item → Bool
  | .mod_ _ p => p
  | .struct_ s => s.vis
  | .enum_ e => e.vis
  | .fn_ f => f.vis
  | .other => false

/-- The `RuaNamed::name` adapters (`adapters.rs`). -/
def Item.name : Item → String
  | .mod_ n _ => n
  | .struct_ s => s.ident.name
  | .enum_ e => e.ident.name
  | .fn_ f => f.ident.name
  | .other => ""

/-- Embeds `logic::RuaFsError`. -/
inductive RuaFsError : Type where
  | ReadFileErr (path : List String) (err : String)
  | FileNotFoundErr (path : List String)
  deriving Repr, DecidableEq

/-- Embeds `logic::ParseError`: offending path plus the front end's own error. -/
structure ParseError where
  path : List String
  err : String
  deriving Repr, DecidableEq

/-- Embeds `logic::RuaError`. -/
inductive RuaError : Type where
  | FsError (e : RuaFsError)
  | ParseError (e : ParseError)
  | ConversionError (e : ConversionError)

/-- A backend call recorded by the runner: which of the three handlers was
invoked, with the owning module and the forwarded declaration. -/
inductive WriteEvent : Type where
  | struct_ (m : Module) (s : ItemStruct)
  | enum_ (m : Module) (e : ItemEnum)
  | fn_ (m : Module) (f : ItemFn)

/-- Modelled from the spec: the backend interface (the `Rua` trait), whose
declaration is not among the provided sources — `logic.rs` only consumes it.
Per §4.5/§6 it supplies an entry path, a substitutable file read, an
inclusion predicate and three emission operations; the emissions are
recorded as `WriteEvent`s by the runner model, so only the queries appear
here. `parseFile` is the external front end `syn::parse_file`
(§6, `parse(text) -> Tree | ParseError`), and `fsExists` is
`std::path::Path::exists`. -/
structure RuaEnv where
  entry_path : List String
  fsExists : List String → Bool
  readFile : List String → Except RuaFsError String
  parseFile : String → Except String (List Item)
  shouldInclude : Item → Bool

/-- The runner's mutable state: the work stack of modules (`Vec` semantics:
push/pop at the end), plus the observable effect streams — backend calls
(`written`), `log::info!` skip messages (`logs`) and, as instrumentation,
the names of the modules popped by the run loop (`processed`). -/
structure RunnerState where
  modules : List Module
  written : List WriteEvent
  logs : List String
  processed : List String

/-- Embeds `Vec::pop`: the last element and the remainder. -/
def popTop (l : List Module) : Option (Module × List Module) :=
  match l.reverse with
  | [] => none
  | x :: rest => some (x, rest.reverse)

/-- Embeds `RuaRunner::get_valid_file_path`: try `<root>/<name>.rs`, then
`<root>/<name>/mod.rs`; the first that exists wins. -/
def get_valid_file_path (env : RuaEnv) (m : Module) : Option (List String) :=
  let path := m.root_path ++ [m.name ++ ".rs"]
  if env.fsExists path then some path
  else
    let path2 := m.root_path ++ [m.name, "mod.rs"]
    if env.fsExists path2 then some path2
    else none

/-- Embeds `RuaRunner::should_include_item`: public, then the backend predicate;
the returned list is the `log::info!` output. -/
def should_include_item (env : RuaEnv) (item : Item) : Bool × List String :=
  if !item.is_pub then
    (false, ["Skipping " ++ item.name ++ " because it is not public"])
  else if !env.shouldInclude item then
    (false,
     ["Skipping " ++ item.name ++ " because `should_include` returned false"])
  else (true, [])

/-- Embeds `RuaRunner::handle_item_mod`: log when the module is not public, then
push a new file module rooted at `entry_path` regardless of visibility. -/
def handle_item_mod (entry_path : List String) (name : String)
    (is_pub : Bool) (st : RunnerState) : RunnerState :=
  let st1 :=
    if !is_pub then
      { st with logs :=
          st.logs ++ ["Skipping " ++ name ++ " because it is not public"] }
    else st
  { st1 with modules :=
      st1.modules ++ [⟨name, .FileModule, entry_path⟩] }

/-- Embeds `RuaRunner::handle_item_struct`. -/
def handle_item_struct (env : RuaEnv) (m : Module) (s : ItemStruct)
    (st : RunnerState) : RunnerState :=
  let r := should_include_item env (.struct_ s)
  let st1 := { st with logs := st.logs ++ r.2 }
  if r.1 then { st1 with written := st1.written ++ [.struct_ m s] } else st1

/-- Embeds `RuaRunner::handle_item_enum`. -/
def handle_item_enum (env : RuaEnv) (m : Module) (e : ItemEnum)
    (st : RunnerState) : RunnerState :=
  let r := should_include_item env (.enum_ e)
  let st1 := { st with logs := st.logs ++ r.2 }
  if r.1 then { st1 with written := st1.written ++ [.enum_ m e] } else st1

/-- Embeds `RuaRunner::handle_item_fn`. -/
def handle_item_fn (env : RuaEnv) (m : Module) (f : ItemFn)
    (st : RunnerState) : RunnerState :=
  let r := should_include_item env (.fn_ f)
  let st1 := { st with logs := st.logs ++ r.2 }
  if r.1 then { st1 with written := st1.written ++ [.fn_ m f] } else st1

/-- One arm of the `match item` in `handle_parsed_file`. -/
def handleItem (env : RuaEnv) (m : Module) (entry_path : List String)
    (item : Item) (st : RunnerState) : RunnerState :=
  match item with
  | .mod_ name is_pub => handle_item_mod entry_path name is_pub st
  | .struct_ s => handle_item_struct env m s st
  | .enum_ e => handle_item_enum env m e st
  | .fn_ f => handle_item_fn env m f st
  | .other => st

/-- Embeds `RuaRunner::handle_parsed_file`: walk the file's top-level items in
order. -/
def handle_parsed_file (env : RuaEnv) (m : Module) (entry_path : List String)
    (items : List Item) (st : RunnerState) : RunnerState :=
  match items with
  | [] => st
  | item :: rest =>
    handle_parsed_file env m entry_path rest (handleItem env m entry_path item st)

/-- Embeds `RuaRunner::read_and_parse_file`: read (substitutable), then parse with
the external front end; failures are wrapped as `FsError` / `ParseError`. -/
def read_and_parse_file (env : RuaEnv) (path : List String) :
    Except RuaError (List Item) :=
  match env.readFile path with
  | .error e => .error (.FsError e)
  | .ok data =>
    match env.parseFile data with
    | .error e => .error (.ParseError ⟨path, e⟩)
    | .ok file => .ok file

/-- Embeds `RuaRunner::read_file_module`: resolve the module's file (or fail with
`FileNotFoundErr` holding the module's name), parse it, then walk it.
Note: the source passes `path` — the resolved file itself, not its
directory — as the `entry_path` for nested modules. -/
def read_file_module (env : RuaEnv) (m : Module) (st : RunnerState) :
    Except RuaError RunnerState :=
  match get_valid_file_path env m with
  | none => .error (.FsError (.FileNotFoundErr [m.name]))
  | some path =>
    match read_and_parse_file env path with
    | .error e => .error e
    | .ok items => .ok (handle_parsed_file env m path items st)

/-- Embeds `RuaRunner::read_crate_module`: the crate's file is
`<root>/src/lib.rs`; nested modules are rooted at `<root>/src`. -/
def read_crate_module (env : RuaEnv) (m : Module) (st : RunnerState) :
    Except RuaError RunnerState :=
  let entry_path := m.root_path ++ ["src"]
  let file_path := entry_path ++ ["lib.rs"]
  match read_and_parse_file env file_path with
  | .error e => .error e
  | .ok items => .ok (handle_parsed_file env m entry_path items st)

/-- Embeds `RuaRunner::read_module`: dispatch on the module kind. -/
def read_module (env : RuaEnv) (m : Module) (st : RunnerState) :
    Except RuaError RunnerState :=
  match m.ty with
  | .CrateModule => read_crate_module env m st
  | .FileModule => read_file_module env m st

/-- The `while let Some(module) = self.modules.pop()` loop of
`RuaRunner::run`, with explicit fuel (`none` = fuel exhausted). Each
iteration records the popped module's name in `processed`. On error the
loop returns the error together with the state at that point, mirroring
`&mut self`. -/
def runLoop (env : RuaEnv) : Nat → RunnerState →
    Option (Except RuaError Unit × RunnerState)
  | fuel, st =>
    match popTop st.modules with
    | none => some (.ok (), st)
    | some (m, rest) =>
      match fuel with
      | 0 => none
      | fuel' + 1 =>
        let st1 : RunnerState :=
          { st with modules := rest, processed := st.processed ++ [m.name] }
        match read_module env m st1 with
        | .error e => some (.error e, st1)
        | .ok st2 => runLoop env fuel' st2

/-! ### Observers and specification-side definitions -/

/-- Whether an `Except` is `ok`. -/
def exceptIsOk : Except ε α → Bool
  | .ok _ => true
  | .error _ => false

/-- The error of an `Except`, or a default when it is `ok`. -/
def errorOrD (d : ε) : Except ε α → ε
  | .error e => e
  | .ok _ => d

/-- An all-unset `ConversionError`, used as the default for `errorOrD`. -/
def emptyConvErr : ConversionError :=
  .mk none none none none none none none

/-- A fixed dummy span for concrete test inputs. -/
def sp0 : Span := ((0, 0), (0, 0))

/-- The error messages of the syntactic type categories the specification
declares unsupported (generic/impl-trait positions, inferred types,
macro-produced types, the never type, parenthesized types, trait-object
types and raw verbatim token streams); `none` for every other category. -/
def unsupportedCategoryMsg : SynType → Option String
  | .implTrait _ => some "unsupported type ImplTrait"
  | .infer _ => some "unsupported type Infer, please specify the type explicitly"
  | .macroTy _ => some "unsupported type Macro"
  | .never _ => some "unsupported type Never"
  | .paren _ => some "unsupported type Paren"
  | .traitObject _ => some "unsupported type TraitObject"
  | .verbatim _ ts => some ("unsupported type Verbatim: " ++ ts)
  | _ => none

/-- The fixed table of recognized primitive spellings, written as the
specification describes it — an association list from identifier text to
primitive type. (Note the code's extras relative to the spec's wording:
`Char`, and the two float spellings.) -/
def primTableSpec : List (String × RuaType) :=
  [("u8", .U8), ("u16", .U16), ("u32", .U32), ("u64", .U64), ("u128", .U128),
   ("usize", .Usize), ("i8", .I8), ("i16", .I16), ("i32", .I32), ("i64", .I64),
   ("i128", .I128), ("isize", .Isize), ("f32", .F32), ("f64", .F64),
   ("bool", .Bool), ("char", .Char), ("Char", .Char), ("str", .Str),
   ("String", .String), ("unit", .Unit), ("Unit", .Unit), ("()", .Unit)]

/-- Specification-side restatement of the identifier-to-type resolution:
look the identifier up in the fixed table; outside the table fall back to
`Custom` of the classified name (which fails when the name classifies as no
casing). -/
def ruaTypeOfIdentSpec (i : Ident) : Except ConversionError RuaType :=
  match primTableSpec.lookup i.name with
  | some t => .ok t
  | none =>
    match tryFromIdentRuaName i with
    | .ok n => .ok (.Custom n)
    | .error e => .error (errMapper i.span "syn::Ident" "RuaType" e)

/-- Specification-side description of the inclusion filter + dispatcher:
the backend call produced for one item — `none` when the item is not
emittable or is rejected, otherwise exactly one event matching the item's
declaration kind, paired with the owning module. -/
def dispatchSpec (env : RuaEnv) (m : Module) : Item → Option WriteEvent
  | .struct_ s =>
    if s.vis && env.shouldInclude (.struct_ s) then some (.struct_ m s)
    else none
  | .enum_ e =>
    if e.vis && env.shouldInclude (.enum_ e) then some (.enum_ m e) else none
  | .fn_ f =>
    if f.vis && env.shouldInclude (.fn_ f) then some (.fn_ m f) else none
  | .mod_ _ _ => none
  | .other => none

/-! ### Concrete fixtures for witnesses and counterexamples -/

/-- An environment whose filesystem is empty. -/
def envNoFs : RuaEnv :=
  ⟨[], fun _ => false, fun p => .error (.ReadFileErr p "No such file"),
   fun _ => .ok [], fun _ => true⟩

/-- An environment in which only `d/foo.rs` exists. -/
def envFooRs : RuaEnv :=
  { envNoFs with fsExists := fun p => p == ["d", "foo.rs"] }

/-- An environment in which only `d/foo/mod.rs` exists. -/
def envFooMod : RuaEnv :=
  { envNoFs with fsExists := fun p => p == ["d", "foo", "mod.rs"] }

/-- A file module `foo` rooted at `d`. -/
def modFoo : Module := ⟨"foo", .FileModule, ["d"]⟩

/-- A second queued file module, used to observe that it is never
processed. -/
def modBar : Module := ⟨"bar", .FileModule, ["d"]⟩

/-- A project for the nested-module scenario: the crate root `proj` has
`proj/src/lib.rs` declaring `mod a;`, and `proj/src/a.rs` declares
`mod b;`; no file for `b` exists anywhere. -/
def envNested : RuaEnv where
  entry_path := ["proj"]
  fsExists := fun p =>
    p == ["proj", "src", "lib.rs"] || p == ["proj", "src", "a.rs"]
  readFile := fun p =>
    if p == ["proj", "src", "lib.rs"] then .ok "mod a;"
    else if p == ["proj", "src", "a.rs"] then .ok "mod b;"
    else .error (.ReadFileErr p "No such file")
  parseFile := fun s =>
    if s == "mod a;" then .ok [.mod_ "a" false]
    else if s == "mod b;" then .ok [.mod_ "b" false]
    else .error "parse error"
  shouldInclude := fun _ => true

/-- Fixture `pub struct S { f: _Foo }` — a struct whose single field has a custom
type whose name classifies as no casing. -/
def structBadFieldName : ItemStruct where
  span := ((1, 0), (3, 1))
  attrs := []
  vis := true
  ident := ⟨"S", ((1, 11), (1, 12))⟩
  fields := .named [⟨((2, 2), (2, 10)), some ⟨"f", ((2, 2), (2, 3))⟩,
    .path ((2, 5), (2, 9)) [⟨"_Foo", ((2, 5), (2, 9))⟩]⟩]

/-- The single field of `structNeverField`: `f: !`. -/
def fieldNever : SynField :=
  ⟨((2, 2), (2, 12)), some ⟨"f", ((2, 2), (2, 3))⟩, .never ((2, 5), (2, 11))⟩

/-- Fixture `pub struct S { f: ! }` — a struct whose single field has a type in an
unsupported syntactic category. -/
def structNeverField : ItemStruct where
  span := ((1, 0), (3, 1))
  attrs := []
  vis := true
  ident := ⟨"S", ((1, 11), (1, 12))⟩
  fields := .named [fieldNever]

/-- The empty runner state. -/
def st0 : RunnerState := ⟨[], [], [], []⟩

/-- A non-public unit struct declaration. -/
def privStruct : ItemStruct :=
  ⟨sp0, [], false, ⟨"priv_s", sp0⟩, .unit⟩

/-- A non-public enum declaration. -/
def privEnum : ItemEnum := ⟨sp0, [], false, ⟨"priv_e", sp0⟩, []⟩

/-- A non-public function declaration. -/
def privFn : ItemFn := ⟨sp0, [], false, ⟨"priv_f", sp0⟩⟩

/-! ## Helper lemmas -/

/-- An ASCII uppercase char is not ASCII lowercase. -/
theorem upper_not_lower (c : Char) :
    isAsciiUppercase c = true → isAsciiLowercase c = false := by
  unfold isAsciiUppercase isAsciiLowercase
  intro h
  simp only [Bool.and_eq_true, decide_eq_true_eq] at h
  simp only [Bool.and_eq_false_iff, decide_eq_false_iff_not]
  omega

/-- A snake-case string is not camel case (by definition). -/
theorem camel_not_snake (s : String) :
    is_camel_case s = true → is_snake_case s = false := by
  unfold is_camel_case
  cases is_snake_case s <;> simp

/-- A snake-case string is not pascal case (by definition). -/
theorem pascal_not_snake (s : String) :
    is_pascal_case s = true → is_snake_case s = false := by
  unfold is_pascal_case
  cases is_snake_case s <;> simp

/-- A pascal-case string is not camel case: the first char cannot be both
ASCII uppercase and ASCII lowercase. -/
theorem pascal_not_camel (s : String) :
    is_pascal_case s = true → is_camel_case s = false := by
  unfold is_pascal_case is_camel_case
  cases hh : s.data.head? with
  | none => intro h; simp at h
  | some v =>
    intro h
    simp only [Bool.and_eq_true] at h
    simp only [Bool.and_eq_false_iff]
    right
    exact upper_not_lower v h.2

/-! ## Claim theorems -/

/-- Claim C10 (confirmed): `ConversionErrorBuilder::build` moves the
accumulated fields into the returned error, resets every builder field to
unset, and a second `build` without intervening setters returns an error
with all seven fields unset. -/
theorem c10_builder_build_resets (b : ConversionErrorBuilder) :
    (b.build).1 = ConversionError.mk b.path b.start b.end_ b.source_type
        b.target_type b.message b.err_source ∧
    (b.build).2 = ConversionError.builder ∧
    ((b.build).2.build).1 =
      ConversionError.mk none none none none none none none :=
  ⟨rfl, rfl, rfl⟩

/-- Claim C1, counterexample: `SCREAMING_SNAKE` — the claim's example of an
identifier matching none of the three casings — is accepted by the code's
pascal-case classifier, so `Name` construction succeeds on it (with tag
`PascalCase`) instead of failing. -/
theorem c1_counterexample :
    is_snake_case "SCREAMING_SNAKE" = false ∧
    is_camel_case "SCREAMING_SNAKE" = false ∧
    is_pascal_case "SCREAMING_SNAKE" = true ∧
    tryFromIdentRuaName ⟨"SCREAMING_SNAKE", ((0, 0), (0, 0))⟩ =
      .ok ⟨"SCREAMING_SNAKE", .PascalCase⟩ :=
  ⟨by decide, by decide, by decide, rfl⟩

/-- Claim C1 as amended: `Name` construction from an identifier succeeds
exactly when the identifier satisfies one of the code's three casing
classifiers — in that order snake, camel, pascal, which are pairwise
disjoint — and the resulting `Name` carries that casing tag; when no
classifier accepts (e.g. a digits-only name), construction fails with the
tagged, span-carrying `ConversionError`. (The classifiers accept more than
the conventional casings: any non-snake identifier starting with an ASCII
uppercase letter — `SCREAMING_SNAKE` included — counts as pascal case.) -/
theorem c1_name_classification (i : Ident) :
    (is_snake_case i.name = true →
      tryFromIdentRuaName i = .ok ⟨i.name, .SnakeCase⟩) ∧
    (is_camel_case i.name = true →
      tryFromIdentRuaName i = .ok ⟨i.name, .CamelCase⟩) ∧
    (is_pascal_case i.name = true →
      tryFromIdentRuaName i = .ok ⟨i.name, .PascalCase⟩) ∧
    (is_snake_case i.name = false → is_camel_case i.name = false →
      is_pascal_case i.name = false →
      tryFromIdentRuaName i = .error (genError i.span "syn::Ident" "RuaName"
        ("The name of the ident is not a valid case: " ++ i.name))) := by
  refine ⟨fun h => ?_, fun h => ?_, fun h => ?_, fun h1 h2 h3 => ?_⟩ <;>
    unfold tryFromIdentRuaName
  · simp [h]
  · simp [h, camel_not_snake i.name h]
  · simp [h, pascal_not_snake i.name h, pascal_not_camel i.name h]
  · simp [h1, h2, h3]

/-- Claim C1, witness: the classification theorem applied to one concrete
identifier of each kind, and to the digits-only name `123`. -/
theorem c1_witness :
    tryFromIdentRuaName ⟨"foo_bar", sp0⟩ = .ok ⟨"foo_bar", .SnakeCase⟩ ∧
    tryFromIdentRuaName ⟨"fooBar", sp0⟩ = .ok ⟨"fooBar", .CamelCase⟩ ∧
    tryFromIdentRuaName ⟨"FooBar", sp0⟩ = .ok ⟨"FooBar", .PascalCase⟩ ∧
    tryFromIdentRuaName ⟨"123", sp0⟩ =
      .error (genError sp0 "syn::Ident" "RuaName"
        ("The name of the ident is not a valid case: " ++ "123")) :=
  ⟨(c1_name_classification ⟨"foo_bar", sp0⟩).1 (by decide),
   (c1_name_classification ⟨"fooBar", sp0⟩).2.1 (by decide),
   (c1_name_classification ⟨"FooBar", sp0⟩).2.2.1 (by decide),
   (c1_name_classification ⟨"123", sp0⟩).2.2.2 (by decide) (by decide)
     (by decide)⟩

/-- Claim C9, counterexample: `RuaName::new("Foo", SnakeCase)` constructs a
`Name` whose casing tag does not match what the classifier computes
(`check` is false) — the claimed invariant fails for the `new`
constructor; only the warning fires. -/
theorem c9_counterexample :
    (RuaName.new "Foo" .SnakeCase).1.check = false ∧
    (RuaName.new "Foo" .SnakeCase).2 = true :=
  ⟨by decide, by decide⟩

/-- Claim C9 as amended: `RuaName::new` stores the string and tag
unchanged and warns exactly when the tag mismatches the classifier (so a
mismatch is never silent, but mismatched names are constructible);
`RuaName::convert` goes through `new`; and names built through
`TryFrom<&Ident>` always satisfy `check`. -/
theorem c9_name_invariant :
    (∀ (s : String) (c : RuaCase),
      (RuaName.new s c).1.name = s ∧ (RuaName.new s c).1.case_ = c ∧
      (RuaName.new s c).2 = !c.check s) ∧
    (∀ (n : RuaName) (c : RuaCase),
      RuaName.convert n c = RuaName.new (c.convert n.name) c) ∧
    (∀ (i : Ident) (n : RuaName),
      tryFromIdentRuaName i = .ok n → n.check = true) := by
  refine ⟨fun s c => ⟨rfl, rfl, rfl⟩, fun n c => rfl, ?_⟩
  intro i n h
  simp only [tryFromIdentRuaName] at h
  split_ifs at h with h1 h2 h3
  all_goals first
    | (cases h; simp only [RuaName.check, RuaCase.check]; assumption)
    | simp at h

/-- Claim C9, witness: the invariant theorem applied at `("Foo",
SnakeCase)` (mismatch detected, warning flag tied to `check`) and at the
identifier `foo` (a name built via `TryFrom` checks out). -/
theorem c9_witness :
    (RuaName.new "Foo" RuaCase.SnakeCase).2 =
      !RuaCase.SnakeCase.check "Foo" ∧
    RuaName.check ⟨"foo", .SnakeCase⟩ = true :=
  ⟨(c9_name_invariant.1 "Foo" .SnakeCase).2.2,
   c9_name_invariant.2.2 ⟨"foo", sp0⟩ ⟨"foo", .SnakeCase⟩ rfl⟩

/-- Evaluation of `TryFrom<&Type> for RuaType` on the unsupported
syntactic categories: a fresh error at the node's span, tagged
(`syn::Type` → `RuaType`), carrying the category-naming message, with no
cause. Shared by the C5 theorem and the C7 development. -/
theorem tryFromType_unsupported_eval (t : SynType) (m : String)
    (h : unsupportedCategoryMsg t = some m) :
    tryFromType t = .error (.mk none (some t.span.1) (some t.span.2)
      (some "syn::Type") (some "RuaType") (some m) none) := by
  cases t <;> simp only [unsupportedCategoryMsg, Option.some.injEq,
      reduceCtorEq] at h <;>
    simp [tryFromType, SynType.span, genError, ConversionError.builder,
      ConversionErrorBuilder.setSpan, ConversionErrorBuilder.setSourceType,
      ConversionErrorBuilder.setTargetType, ConversionErrorBuilder.setMessage,
      ConversionErrorBuilder.build, ← h]

/-- Claim C5 (confirmed): for every type node in one of the explicitly
unsupported syntactic categories (impl-trait, inferred, macro-produced,
never, parenthesized, trait-object, verbatim), conversion to `RuaType`
fails, and the error's message names the specific category
(`unsupportedCategoryMsg` lists the exact message per category). -/
theorem c5_unsupported_types_fail (t : SynType) (m : String)
    (h : unsupportedCategoryMsg t = some m) :
    tryFromType t = .error (.mk none (some t.span.1) (some t.span.2)
      (some "syn::Type") (some "RuaType") (some m) none) :=
  tryFromType_unsupported_eval t m h

/-- Claim C5, witness: the theorem applied to the never type `!`. -/
theorem c5_witness :
    unsupportedCategoryMsg (SynType.never sp0) =
      some "unsupported type Never" ∧
    tryFromType (SynType.never sp0) = .error (.mk none (some (0, 0))
      (some (0, 0)) (some "syn::Type") (some "RuaType")
      (some "unsupported type Never") none) :=
  ⟨rfl, c5_unsupported_types_fail (SynType.never sp0)
    "unsupported type Never" rfl⟩

/-- Claim C4, counterexample: the identifier `Char` is outside the claim's
table (which lists only `char` for the character type) yet resolves to the
`Char` primitive rather than `Custom("Char")`; and the identifier `_Foo`
is outside the table yet conversion fails (the `Custom` fallback
classifies the name, and `_Foo` matches no casing) — so "never a
conversion failure" is false. -/
theorem c4_counterexample :
    tryFromIdentRuaType ⟨"Char", sp0⟩ = .ok RuaType.Char ∧
    exceptIsOk (tryFromIdentRuaType ⟨"_Foo", sp0⟩) = false :=
  ⟨rfl, rfl⟩

/-- Claim C4 as amended: resolution of a path type's final segment
identifier agrees with a lookup in the fixed table `primTableSpec` (the
twelve integer kinds, the two float kinds, `bool`, `char` — also spelled
`Char` — `str`, `String`, and unit spelled `unit`/`Unit`/`()`); outside
the table the identifier becomes `Custom` of the classified name, which
fails with a wrapped `ConversionError` exactly when the name classifies as
no casing. -/
theorem c4_ident_primitive_table (i : Ident) :
    tryFromIdentRuaType i = ruaTypeOfIdentSpec i := by
  unfold tryFromIdentRuaType ruaTypeOfIdentSpec primTableSpec
  rcases Bool.eq_false_or_eq_true (i.name == "u8") with h0 | h0 <;>
    simp only [List.lookup, h0, Bool.false_or, Bool.true_or, Bool.or_false,
      Bool.or_true, if_true, if_false, ite_true, ite_false, reduceIte,
      Bool.false_eq_true, Bool.true_eq_false] <;>
    try rfl
  rcases Bool.eq_false_or_eq_true (i.name == "u16") with h1 | h1 <;>
    simp only [List.lookup, h1, Bool.false_or, Bool.true_or, Bool.or_false,
      Bool.or_true, if_true, if_false, ite_true, ite_false, reduceIte,
      Bool.false_eq_true, Bool.true_eq_false] <;>
    try rfl
  rcases Bool.eq_false_or_eq_true (i.name == "u32") with h2 | h2 <;>
    simp only [List.lookup, h2, Bool.false_or, Bool.true_or, Bool.or_false,
      Bool.or_true, if_true, if_false, ite_true, ite_false, reduceIte,
      Bool.false_eq_true, Bool.true_eq_false] <;>
    try rfl
  rcases Bool.eq_false_or_eq_true (i.name == "u64") with h3 | h3 <;>
    simp only [List.lookup, h3, Bool.false_or, Bool.true_or, Bool.or_false,
      Bool.or_true, if_true, if_false, ite_true, ite_false, reduceIte,
      Bool.false_eq_true, Bool.true_eq_false] <;>
    try rfl
  rcases Bool.eq_false_or_eq_true (i.name == "u128") with h4 | h4 <;>
    simp only [List.lookup, h4, Bool.false_or, Bool.true_or, Bool.or_false,
      Bool.or_true, if_true, if_false, ite_true, ite_false, reduceIte,
      Bool.false_eq_true, Bool.true_eq_false] <;>
    try rfl
  rcases Bool.eq_false_or_eq_true (i.name == "usize") with h5 | h5 <;>
    simp only [List.lookup, h5, Bool.false_or, Bool.true_or, Bool.or_false,
      Bool.or_true, if_true, if_false, ite_true, ite_false, reduceIte,
      Bool.false_eq_true, Bool.true_eq_false] <;>
    try rfl
  rcases Bool.eq_false_or_eq_true (i.name == "i8") with h6 | h6 <;>
    simp only [List.lookup, h6, Bool.false_or, Bool.true_or, Bool.or_false,
      Bool.or_true, if_true, if_false, ite_true, ite_false, reduceIte,
      Bool.false_eq_true, Bool.true_eq_false] <;>
    try rfl
  rcases Bool.eq_false_or_eq_true (i.name == "i16") with h7 | h7 <;>
    simp only [List.lookup, h7, Bool.false_or, Bool.true_or, Bool.or_false,
      Bool.or_true, if_true, if_false, ite_true, ite_false, reduceIte,
      Bool.false_eq_true, Bool.true_eq_false] <;>
    try rfl
  rcases Bool.eq_false_or_eq_true (i.name == "i32") with h8 | h8 <;>
    simp only [List.lookup, h8, Bool.false_or, Bool.true_or, Bool.or_false,
      Bool.or_true, if_true, if_false, ite_true, ite_false, reduceIte,
      Bool.false_eq_true, Bool.true_eq_false] <;>
    try rfl
  rcases Bool.eq_false_or_eq_true (i.name == "i64") with h9 | h9 <;>
    simp only [List.lookup, h9, Bool.false_or, Bool.true_or, Bool.or_false,
      Bool.or_true, if_true, if_false, ite_true, ite_false, reduceIte,
      Bool.false_eq_true, Bool.true_eq_false] <;>
    try rfl
  rcases Bool.eq_false_or_eq_true (i.name == "i128") with h10 | h10 <;>
    simp only [List.lookup, h10, Bool.false_or, Bool.true_or, Bool.or_false,
      Bool.or_true, if_true, if_false, ite_true, ite_false, reduceIte,
      Bool.false_eq_true, Bool.true_eq_false] <;>
    try rfl
  rcases Bool.eq_false_or_eq_true (i.name == "isize") with h11 | h11 <;>
    simp only [List.lookup, h11, Bool.false_or, Bool.true_or, Bool.or_false,
      Bool.or_true, if_true, if_false, ite_true, ite_false, reduceIte,
      Bool.false_eq_true, Bool.true_eq_false] <;>
    try rfl
  rcases Bool.eq_false_or_eq_true (i.name == "f32") with h12 | h12 <;>
    simp only [List.lookup, h12, Bool.false_or, Bool.true_or, Bool.or_false,
      Bool.or_true, if_true, if_false, ite_true, ite_false, reduceIte,
      Bool.false_eq_true, Bool.true_eq_false] <;>
    try rfl
  rcases Bool.eq_false_or_eq_true (i.name == "f64") with h13 | h13 <;>
    simp only [List.lookup, h13, Bool.false_or, Bool.true_or, Bool.or_false,
      Bool.or_true, if_true, if_false, ite_true, ite_false, reduceIte,
      Bool.false_eq_true, Bool.true_eq_false] <;>
    try rfl
  rcases Bool.eq_false_or_eq_true (i.name == "bool") with h14 | h14 <;>
    simp only [List.lookup, h14, Bool.false_or, Bool.true_or, Bool.or_false,
      Bool.or_true, if_true, if_false, ite_true, ite_false, reduceIte,
      Bool.false_eq_true, Bool.true_eq_false] <;>
    try rfl
  rcases Bool.eq_false_or_eq_true (i.name == "char") with h15 | h15 <;>
    simp only [List.lookup, h15, Bool.false_or, Bool.true_or, Bool.or_false,
      Bool.or_true, if_true, if_false, ite_true, ite_false, reduceIte,
      Bool.false_eq_true, Bool.true_eq_false] <;>
    try rfl
  rcases Bool.eq_false_or_eq_true (i.name == "Char") with h16 | h16 <;>
    simp only [List.lookup, h16, Bool.false_or, Bool.true_or, Bool.or_false,
      Bool.or_true, if_true, if_false, ite_true, ite_false, reduceIte,
      Bool.false_eq_true, Bool.true_eq_false] <;>
    try rfl
  rcases Bool.eq_false_or_eq_true (i.name == "str") with h17 | h17 <;>
    simp only [List.lookup, h17, Bool.false_or, Bool.true_or, Bool.or_false,
      Bool.or_true, if_true, if_false, ite_true, ite_false, reduceIte,
      Bool.false_eq_true, Bool.true_eq_false] <;>
    try rfl
  rcases Bool.eq_false_or_eq_true (i.name == "String") with h18 | h18 <;>
    simp only [List.lookup, h18, Bool.false_or, Bool.true_or, Bool.or_false,
      Bool.or_true, if_true, if_false, ite_true, ite_false, reduceIte,
      Bool.false_eq_true, Bool.true_eq_false] <;>
    try rfl
  rcases Bool.eq_false_or_eq_true (i.name == "unit") with h19 | h19 <;>
    simp only [List.lookup, h19, Bool.false_or, Bool.true_or, Bool.or_false,
      Bool.or_true, if_true, if_false, ite_true, ite_false, reduceIte,
      Bool.false_eq_true, Bool.true_eq_false] <;>
    try rfl
  rcases Bool.eq_false_or_eq_true (i.name == "Unit") with h20 | h20 <;>
    simp only [List.lookup, h20, Bool.false_or, Bool.true_or, Bool.or_false,
      Bool.or_true, if_true, if_false, ite_true, ite_false, reduceIte,
      Bool.false_eq_true, Bool.true_eq_false] <;>
    try rfl
  rcases Bool.eq_false_or_eq_true (i.name == "()") with h21 | h21 <;>
    simp only [List.lookup, h21, Bool.false_or, Bool.true_or, Bool.or_false,
      Bool.or_true, if_true, if_false, ite_true, ite_false, reduceIte,
      Bool.false_eq_true, Bool.true_eq_false] <;>
    try rfl

/-- Lemma: `handle_item_struct` in closed form: it appends the filter's log output
and, exactly when the filter accepts, one `struct_` event. -/
theorem handle_item_struct_eq (env : RuaEnv) (m : Module) (s : ItemStruct)
    (st : RunnerState) :
    handle_item_struct env m s st =
      { st with
        logs := st.logs ++ (should_include_item env (.struct_ s)).2,
        written := st.written ++ (dispatchSpec env m (.struct_ s)).toList } := by
  unfold handle_item_struct dispatchSpec should_include_item Item.is_pub
  cases hv : s.vis <;> cases hi : env.shouldInclude (.struct_ s) <;>
    simp [hv, hi]

/-- Lemma: `handle_item_enum` in closed form. -/
theorem handle_item_enum_eq (env : RuaEnv) (m : Module) (e : ItemEnum)
    (st : RunnerState) :
    handle_item_enum env m e st =
      { st with
        logs := st.logs ++ (should_include_item env (.enum_ e)).2,
        written := st.written ++ (dispatchSpec env m (.enum_ e)).toList } := by
  unfold handle_item_enum dispatchSpec should_include_item Item.is_pub
  cases hv : e.vis <;> cases hi : env.shouldInclude (.enum_ e) <;>
    simp [hv, hi]

/-- Lemma: `handle_item_fn` in closed form. -/
theorem handle_item_fn_eq (env : RuaEnv) (m : Module) (f : ItemFn)
    (st : RunnerState) :
    handle_item_fn env m f st =
      { st with
        logs := st.logs ++ (should_include_item env (.fn_ f)).2,
        written := st.written ++ (dispatchSpec env m (.fn_ f)).toList } := by
  unfold handle_item_fn dispatchSpec should_include_item Item.is_pub
  cases hv : f.vis <;> cases hi : env.shouldInclude (.fn_ f) <;>
    simp [hv, hi]

/-- The backend calls produced by one item of a parsed file. -/
theorem handleItem_written (env : RuaEnv) (m : Module)
    (entry : List String) (it : Item) (st : RunnerState) :
    (handleItem env m entry it st).written =
      st.written ++ (dispatchSpec env m it).toList := by
  cases it with
  | mod_ name is_pub =>
    unfold handleItem handle_item_mod dispatchSpec
    cases is_pub <;> simp
  | struct_ s => rw [show handleItem env m entry (.struct_ s) st =
      handle_item_struct env m s st from rfl, handle_item_struct_eq]
  | enum_ e => rw [show handleItem env m entry (.enum_ e) st =
      handle_item_enum env m e st from rfl, handle_item_enum_eq]
  | fn_ f => rw [show handleItem env m entry (.fn_ f) st =
      handle_item_fn env m f st from rfl, handle_item_fn_eq]
  | other => simp [handleItem, dispatchSpec]

/-- Claim C6 (confirmed): over the items of a parsed file, the backend
receives exactly the filter-accepted emittable declarations, in order: an
item produces a backend call iff it is a struct/enum/fn that is public and
accepted by `should_include`, the call goes to the handler matching the
declaration kind, and it is paired with the owning module
(`dispatchSpec`). Rejected items produce no call. -/
theorem c6_inclusion_dispatch (env : RuaEnv) (m : Module)
    (entry : List String) (items : List Item) (st : RunnerState) :
    (handle_parsed_file env m entry items st).written =
      st.written ++ items.filterMap (dispatchSpec env m) := by
  induction items generalizing st with
  | nil => simp [handle_parsed_file]
  | cons it rest ih =>
    rw [handle_parsed_file, ih, handleItem_written]
    cases h : dispatchSpec env m it <;>
      simp [h, List.filterMap_cons]

/-- Claim C8 (confirmed): a nested module declaration is pushed onto the
work stack irrespective of its visibility — a non-public one only adds a
log notice — while non-public structs, enums and functions never produce a
backend call (and a non-public struct leaves the stack untouched, adding
only the log notice). -/
theorem c8_module_visibility_asymmetry :
    (∀ (entry : List String) (name : String) (is_pub : Bool)
        (st : RunnerState),
      (handle_item_mod entry name is_pub st).modules =
        st.modules ++ [⟨name, .FileModule, entry⟩] ∧
      (handle_item_mod entry name is_pub st).written = st.written ∧
      (handle_item_mod entry name is_pub st).logs =
        st.logs ++ (if is_pub then []
          else ["Skipping " ++ name ++ " because it is not public"])) ∧
    (∀ (env : RuaEnv) (m : Module) (s : ItemStruct) (st : RunnerState),
      s.vis = false →
      (handle_item_struct env m s st).written = st.written ∧
      (handle_item_struct env m s st).modules = st.modules ∧
      (handle_item_struct env m s st).logs = st.logs ++
        ["Skipping " ++ s.ident.name ++ " because it is not public"]) ∧
    (∀ (env : RuaEnv) (m : Module) (e : ItemEnum) (st : RunnerState),
      e.vis = false →
      (handle_item_enum env m e st).written = st.written) ∧
    (∀ (env : RuaEnv) (m : Module) (f : ItemFn) (st : RunnerState),
      f.vis = false →
      (handle_item_fn env m f st).written = st.written) := by
  refine ⟨?_, ?_, ?_, ?_⟩
  · intro entry name is_pub st
    unfold handle_item_mod
    cases is_pub <;> simp
  · intro env m s st h
    unfold handle_item_struct should_include_item Item.is_pub Item.name
    simp [h]
  · intro env m e st h
    unfold handle_item_enum should_include_item Item.is_pub
    simp [h]
  · intro env m f st h
    unfold handle_item_fn should_include_item Item.is_pub
    simp [h]

/-- Claim C8, witness: a non-public module still gets queued; non-public
struct/enum/fn declarations produce no backend call. -/
theorem c8_witness :
    (handle_item_mod ["d"] "m1" false st0).modules =
      [⟨"m1", .FileModule, ["d"]⟩] ∧
    (handle_item_struct envNoFs modFoo privStruct st0).written = [] ∧
    (handle_item_enum envNoFs modFoo privEnum st0).written = [] ∧
    (handle_item_fn envNoFs modFoo privFn st0).written = [] :=
  ⟨(c8_module_visibility_asymmetry.1 ["d"] "m1" false st0).1,
   (c8_module_visibility_asymmetry.2.1 envNoFs modFoo privStruct st0 rfl).1,
   c8_module_visibility_asymmetry.2.2.1 envNoFs modFoo privEnum st0 rfl,
   c8_module_visibility_asymmetry.2.2.2 envNoFs modFoo privFn st0 rfl⟩

/-- Lemma: `Vec::pop` on a nonempty stack returns the last element. -/
theorem popTop_append (l : List Module) (x : Module) :
    popTop (l ++ [x]) = some (x, l) := by
  simp [popTop, List.reverse_append]

/-- Claim C3 (confirmed): file-module resolution tries `<root>/<name>.rs`
first and `<root>/<name>/mod.rs` second, using the first that exists; when
neither exists, `read_file_module` fails with a file-not-found error
carrying the module's name, and the run loop returns that error at once —
the remaining queued modules are left on no further processing (`processed`
gains only the failing module's name, no backend call is added, and the
error is the same whatever the rest of the queue holds). -/
theorem c3_file_not_found_aborts :
    (∀ (env : RuaEnv) (m : Module),
      env.fsExists (m.root_path ++ [m.name ++ ".rs"]) = true →
      get_valid_file_path env m = some (m.root_path ++ [m.name ++ ".rs"])) ∧
    (∀ (env : RuaEnv) (m : Module),
      env.fsExists (m.root_path ++ [m.name ++ ".rs"]) = false →
      env.fsExists (m.root_path ++ [m.name, "mod.rs"]) = true →
      get_valid_file_path env m = some (m.root_path ++ [m.name, "mod.rs"])) ∧
    (∀ (env : RuaEnv) (m : Module) (st : RunnerState),
      env.fsExists (m.root_path ++ [m.name ++ ".rs"]) = false →
      env.fsExists (m.root_path ++ [m.name, "mod.rs"]) = false →
      read_file_module env m st =
        .error (.FsError (.FileNotFoundErr [m.name]))) ∧
    (∀ (env : RuaEnv) (fuel : Nat) (m : Module) (rest : List Module)
        (st : RunnerState),
      m.ty = .FileModule →
      env.fsExists (m.root_path ++ [m.name ++ ".rs"]) = false →
      env.fsExists (m.root_path ++ [m.name, "mod.rs"]) = false →
      st.modules = rest ++ [m] →
      runLoop env (fuel + 1) st =
        some (.error (.FsError (.FileNotFoundErr [m.name])),
          { st with modules := rest,
                    processed := st.processed ++ [m.name] })) := by
  refine ⟨?_, ?_, ?_, ?_⟩
  · intro env m h
    simp [get_valid_file_path, h]
  · intro env m h1 h2
    simp [get_valid_file_path, h1, h2]
  · intro env m st h1 h2
    simp [read_file_module, get_valid_file_path, h1, h2]
  · intro env fuel m rest st hty h1 h2 hmod
    rw [runLoop, hmod, popTop_append]
    simp [read_module, hty, read_file_module, get_valid_file_path, h1, h2]

/-- Claim C3, witness: the theorem applied to a filesystem holding only
`d/foo.rs`, one holding only `d/foo/mod.rs`, and the empty one — in the
last case a run with `bar` still queued under `foo` aborts with the
file-not-found error naming `foo`, with `bar` unprocessed. -/
theorem c3_witness :
    get_valid_file_path envFooRs modFoo = some ["d", "foo.rs"] ∧
    get_valid_file_path envFooMod modFoo = some ["d", "foo", "mod.rs"] ∧
    read_file_module envNoFs modFoo st0 =
      .error (.FsError (.FileNotFoundErr ["foo"])) ∧
    runLoop envNoFs 1 ⟨[modBar, modFoo], [], [], []⟩ =
      some (.error (.FsError (.FileNotFoundErr ["foo"])),
        ⟨[modBar], [], [], ["foo"]⟩) :=
  ⟨c3_file_not_found_aborts.1 envFooRs modFoo (by decide),
   c3_file_not_found_aborts.2.1 envFooMod modFoo (by decide) (by decide),
   c3_file_not_found_aborts.2.2.1 envNoFs modFoo st0 (by decide) (by decide),
   c3_file_not_found_aborts.2.2.2 envNoFs 0 modFoo [modBar]
     ⟨[modBar, modFoo], [], [], []⟩ rfl (by decide) (by decide) rfl⟩

/-- Claim C2 (code bug): walking `proj/src/a.rs` (the file module `a`,
declaring `mod b;`) pushes a module for `b` whose root path is the
resolved *file* `proj/src/a.rs` — not that file's directory `proj/src` as
the specification states — because `read_file_module` passes `path` rather
than the containing directory to `handle_parsed_file`; consequently the
full run aborts trying to resolve `b` under `proj/src/a.rs`. (The crate
root correctly uses the directory `proj/src`, which is how `a` itself
resolves.) -/
theorem c2_nested_module_root_eval :
    read_file_module envNested ⟨"a", .FileModule, ["proj", "src"]⟩ st0 =
      .ok ⟨[⟨"b", .FileModule, ["proj", "src", "a.rs"]⟩], [],
           ["Skipping b because it is not public"], []⟩ ∧
    (["proj", "src", "a.rs"] ≠ ["proj", "src"]) ∧
    runLoop envNested 3
        ⟨[⟨"proj_crate", .CrateModule, ["proj"]⟩], [], [], []⟩ =
      some (.error (.FsError (.FileNotFoundErr ["b"])),
        ⟨[], [],
         ["Skipping a because it is not public",
          "Skipping b because it is not public"],
         ["proj_crate", "a", "b"]⟩) :=
  ⟨rfl, by decide, rfl⟩

/-- Lemma: `convert_named_fields` fails on the first failing field, wrapping that
field's error with the enclosing conversion's mapper. -/
theorem convert_named_fields_append (d : MapperData)
    (pre post : List SynField) (f : SynField) (e : ConversionError)
    (hpre : ∀ g ∈ pre, exceptIsOk (tryFromFieldVar g) = true)
    (hf : tryFromFieldVar f = .error e) :
    convert_named_fields d (pre ++ f :: post) = .error (applyMapper d e) := by
  induction pre with
  | nil => simp [convert_named_fields, hf]
  | cons g gs ih =>
    have hg : exceptIsOk (tryFromFieldVar g) = true := hpre g (by simp)
    rcases hok : tryFromFieldVar g with e' | v
    · rw [hok] at hg
      simp [exceptIsOk] at hg
    · simp only [List.cons_append, convert_named_fields, hok, List.append_eq]
      rw [ih (fun x hx => hpre x (by simp [hx]))]

/-- A named field whose type sits in an unsupported category converts to
the doubly-tagged error: (`syn::Field` → `RuaVar`) wrapping
(`syn::Type` → `RuaType`). -/
theorem tryFromFieldVar_unsupported (f : SynField) (fid : Ident)
    (nm : RuaName) (msg : String)
    (hid : f.ident = some fid) (hname : tryFromIdentRuaName fid = .ok nm)
    (hty : unsupportedCategoryMsg f.ty = some msg) :
    tryFromFieldVar f = .error (errMapper f.span "syn::Field" "RuaVar"
      (.mk none (some f.ty.span.1) (some f.ty.span.2) (some "syn::Type")
        (some "RuaType") (some msg) none)) := by
  unfold tryFromFieldVar
  rw [hid]
  simp only [hname]
  rw [tryFromType_unsupported_eval f.ty msg hty]

/-- Claim C7 as amended: when converting a struct fails because one named
field's type is itself an unsupported syntactic category (the earlier
fields converting fine and the field's own name classifying fine), the
resulting error's outermost tags name (`syn::ItemStruct` → `RuaStruct`),
its innermost cause's tags name (`syn::Type` → `RuaType`) and carry the
category message, and — whenever the struct node's span differs from the
field type node's span — the outermost error and the innermost cause carry
distinct spans. (For deeper failures inside the field's type the innermost
cause can carry other tags; see the counterexample.) -/
theorem c7_struct_field_error_chain (s : ItemStruct)
    (pre post : List SynField) (f : SynField) (fid : Ident) (nm : RuaName)
    (msg : String)
    (hfields : s.fields = .named (pre ++ f :: post))
    (hpre : ∀ g ∈ pre, exceptIsOk (tryFromFieldVar g) = true)
    (hid : f.ident = some fid)
    (hname : tryFromIdentRuaName fid = .ok nm)
    (hty : unsupportedCategoryMsg f.ty = some msg)
    (hspan : s.span ≠ f.ty.span) :
    exceptIsOk (tryFromItemStructRua s) = false ∧
    (errorOrD emptyConvErr (tryFromItemStructRua s)).source_type =
      some "syn::ItemStruct" ∧
    (errorOrD emptyConvErr (tryFromItemStructRua s)).target_type =
      some "RuaStruct" ∧
    ((errorOrD emptyConvErr (tryFromItemStructRua s)).innermost).source_type =
      some "syn::Type" ∧
    ((errorOrD emptyConvErr (tryFromItemStructRua s)).innermost).target_type =
      some "RuaType" ∧
    ((errorOrD emptyConvErr (tryFromItemStructRua s)).innermost).message =
      some msg ∧
    ((errorOrD emptyConvErr (tryFromItemStructRua s)).start,
      (errorOrD emptyConvErr (tryFromItemStructRua s)).end_) ≠
    (((errorOrD emptyConvErr (tryFromItemStructRua s)).innermost).start,
      ((errorOrD emptyConvErr (tryFromItemStructRua s)).innermost).end_) := by
  have hE : tryFromItemStructRua s =
      .error (errMapper s.span "syn::ItemStruct" "RuaStruct"
        (errMapper f.span "syn::Field" "RuaVar"
          (.mk none (some f.ty.span.1) (some f.ty.span.2) (some "syn::Type")
            (some "RuaType") (some msg) none))) := by
    unfold tryFromItemStructRua
    rw [hfields]
    simp only [convert_fields]
    rw [convert_named_fields_append _ pre post f _ hpre
      (tryFromFieldVar_unsupported f fid nm msg hid hname hty)]
    rfl
  rw [hE]
  refine ⟨rfl, ?_, ?_, ?_, ?_, ?_, ?_⟩ <;>
    simp only [errorOrD, errMapper, applyMapper, ConversionError.builder_for_next,
      ConversionErrorBuilder.setSpan, ConversionErrorBuilder.setSourceType,
      ConversionErrorBuilder.setTargetType, ConversionErrorBuilder.build,
      ConversionError.innermost, ConversionError.source_type,
      ConversionError.target_type, ConversionError.message,
      ConversionError.start, ConversionError.end_]
  intro heq
  apply hspan
  simp only [Prod.mk.injEq, Option.some.injEq] at heq
  exact Prod.ext heq.1 heq.2

/-- Claim C7, witness: the amended theorem applied to
`pub struct S { f: ! }`. -/
theorem c7_witness :
    exceptIsOk (tryFromItemStructRua structNeverField) = false ∧
    (errorOrD emptyConvErr (tryFromItemStructRua structNeverField)).source_type =
      some "syn::ItemStruct" ∧
    (errorOrD emptyConvErr (tryFromItemStructRua structNeverField)).target_type =
      some "RuaStruct" ∧
    ((errorOrD emptyConvErr
        (tryFromItemStructRua structNeverField)).innermost).source_type =
      some "syn::Type" ∧
    ((errorOrD emptyConvErr
        (tryFromItemStructRua structNeverField)).innermost).target_type =
      some "RuaType" ∧
    ((errorOrD emptyConvErr
        (tryFromItemStructRua structNeverField)).innermost).message =
      some "unsupported type Never" ∧
    ((errorOrD emptyConvErr (tryFromItemStructRua structNeverField)).start,
      (errorOrD emptyConvErr (tryFromItemStructRua structNeverField)).end_) ≠
    (((errorOrD emptyConvErr
        (tryFromItemStructRua structNeverField)).innermost).start,
      ((errorOrD emptyConvErr
        (tryFromItemStructRua structNeverField)).innermost).end_) :=
  c7_struct_field_error_chain structNeverField [] [] fieldNever
    ⟨"f", ((2, 2), (2, 3))⟩ ⟨"f", .SnakeCase⟩ "unsupported type Never"
    rfl (by simp) rfl rfl rfl (by decide)

/-- Claim C7, counterexample: for `pub struct S { f: _Foo }` the field's
type conversion fails deeper down — resolving the path's final identifier
to a name — so the innermost cause of the chain is tagged
(`syn::Ident` → `RuaName`), not (`syn::Type` → `RuaType`) as the claim
states for every struct conversion with a failing field type. -/
theorem c7_counterexample :
    exceptIsOk (tryFromItemStructRua structBadFieldName) = false ∧
    (errorOrD emptyConvErr
        (tryFromItemStructRua structBadFieldName)).source_type =
      some "syn::ItemStruct" ∧
    (errorOrD emptyConvErr
        (tryFromItemStructRua structBadFieldName)).target_type =
      some "RuaStruct" ∧
    ((errorOrD emptyConvErr
        (tryFromItemStructRua structBadFieldName)).innermost).source_type =
      some "syn::Ident" ∧
    ((errorOrD emptyConvErr
        (tryFromItemStructRua structBadFieldName)).innermost).target_type =
      some "RuaName" := by
  have hE : tryFromItemStructRua structBadFieldName =
      .error (applyMapper ⟨((1, 0), (3, 1)), "syn::ItemStruct", "RuaStruct"⟩
        (errMapper ((2, 2), (2, 10)) "syn::Field" "RuaVar"
          (errMapper ((2, 5), (2, 9)) "syn::Type" "RuaType"
            (errMapper ((2, 5), (2, 9)) "syn::TypePath" "RuaType"
              (errMapper ((2, 5), (2, 9)) "syn::Ident" "RuaType"
                (genError ((2, 5), (2, 9)) "syn::Ident" "RuaName"
                  ("The name of the ident is not a valid case: " ++
                    "_Foo"))))))) := by
    simp [tryFromItemStructRua, convert_fields, convert_named_fields,
      tryFromFieldVar, structBadFieldName, tryFromType, tryFromTypePath,
      tryFromIdentRuaType, tryFromIdentRuaName]
    rfl
  rw [hE]
  refine ⟨rfl, ?_, ?_, ?_, ?_⟩ <;>
    simp only [errorOrD, errMapper, applyMapper, genError,
      ConversionError.builder, ConversionError.builder_for_next,
      ConversionErrorBuilder.setSpan, ConversionErrorBuilder.setSourceType,
      ConversionErrorBuilder.setTargetType, ConversionErrorBuilder.setMessage,
      ConversionErrorBuilder.build, ConversionError.innermost,
      ConversionError.source_type, ConversionError.target_type]

end Rua
